import Mathlib

/-!
Shallow embedding of the Eventra calendar MCP server, covering the
Prisma-backed OAuth token store (`src/utils/prisma-token-store`, read here
from `src/unnamed/part_001`) and the tool layer of `src/server.ts`
(`getAuthUrl`, `createCalendarEvent`, `getMyCalendarDataByDate`,
the `createCalendarEvent` tool handler and the `setGoogleOAuthTokens`
tool handler).

Times are modelled as `Int` milliseconds since the Unix epoch (JS `Date`
values).  JS truthiness on optional strings and numbers is modelled
explicitly: an absent value and the empty string (resp. the number 0) are
falsy.  The database is a list of `OAuthTokenRecord`s; Prisma queries
become list operations.  Fallible operations return `Except`, and the
possibility of a storage-layer fault is an explicit boolean parameter.
-/

/-- JS truthiness of an optional string: `undefined`/`null` and `""` are falsy. -/
def strTruthy : Option String → Bool
  | none => false
  | some s => !(s == "")

/-- JS truthiness of an optional number: `undefined`/`null` and `0` are falsy. -/
def intTruthy : Option Int → Bool
  | none => false
  | some v => !(v == 0)

/-- Rendering of an optional string inside a JS template literal:
`undefined` renders as the literal string "undefined". -/
def jsTemplate : Option String → String
  | none => "undefined"
  | some s => s

/-- Google OAuth credential set (`Credentials` from google-auth-library),
as consumed and produced by the token store. -/
structure Credentials where
  access_token : Option String
  refresh_token : Option String
  token_type : Option String
  scope : Option String
  expiry_date : Option Int
  id_token : Option String
deriving Repr, DecidableEq

/-- One row of the `OAuthToken` table (prisma migration
`20250901122005_init` plus the `userEmail` column added by
`20250905140000_add_user_email`). -/
structure OAuthTokenRecord where
  userId : String
  accessToken : String
  refreshToken : Option String
  tokenType : String
  scope : Option String
  expiresAt : Int
  idToken : Option String
  userEmail : Option String
  createdAt : Int
  updatedAt : Int
deriving Repr, DecidableEq

/-- The `OAuthToken` table, as a list of rows. -/
abbrev TokenDb := List OAuthTokenRecord

/-- Errors raised inside the body of `PrismaTokenStore.saveTokens` before
the surrounding catch rewrites them: the explicit validation throw
(`Invalid tokens: access_token is required`) or a storage-layer fault on
the upsert. -/
inductive SaveError where
  | validation (msg : String)
  | storage (msg : String)
deriving Repr, DecidableEq

/-- The `expiresAt` computed by `saveTokens`:
`tokens.expiry_date ? new Date(tokens.expiry_date) : new Date(Date.now() + 3600 * 1000)`.
JS truthiness makes `expiry_date = 0` fall to the one-hour default. -/
def computedExpiresAt (tokens : Credentials) (now : Int) : Int :=
  if intTruthy tokens.expiry_date then tokens.expiry_date.getD 0
  else now + 3600 * 1000

/-- Effect of one field of a prisma `update` payload on a nullable
column: prisma treats a field whose value is `undefined` as "not
provided" and skips it, so the stored value survives; a provided value
overwrites. -/
def prismaUpdateField (newv old : Option String) : Option String :=
  match newv with
  | none => old
  | some s => some s

/-- `prisma.oAuthToken.upsert` keyed on `userId`, with the exact `update`
and `create` payloads used by `saveTokens`: `tokenType` defaults to
"Bearer" when `tokens.token_type` is falsy, `updatedAt` is set to the save
instant, and `createdAt` is preserved on update / set on create.  In the
`update` payload the optional inputs `refreshToken`, `scope` and `idToken`
are `undefined` when the corresponding token field is absent, so prisma
skips them and the stored values are preserved; in the `create` payload an
`undefined` optional field leaves the column NULL. -/
def upsertToken (db : TokenDb) (userId : String) (tokens : Credentials)
    (userEmail : Option String) (expiresAt now : Int) : TokenDb :=
  if db.any (fun r => r.userId == userId) then
    db.map (fun r =>
      if r.userId == userId then
        { r with
          accessToken := tokens.access_token.getD ""
          refreshToken := prismaUpdateField tokens.refresh_token r.refreshToken
          tokenType := if strTruthy tokens.token_type then tokens.token_type.getD "" else "Bearer"
          scope := prismaUpdateField tokens.scope r.scope
          expiresAt := expiresAt
          idToken := prismaUpdateField tokens.id_token r.idToken
          userEmail := userEmail
          updatedAt := now }
      else r)
  else
    db ++ [{ userId := userId
             accessToken := tokens.access_token.getD ""
             refreshToken := tokens.refresh_token
             tokenType := if strTruthy tokens.token_type then tokens.token_type.getD "" else "Bearer"
             scope := tokens.scope
             expiresAt := expiresAt
             idToken := tokens.id_token
             userEmail := userEmail
             createdAt := now
             updatedAt := now }]

/-- Body of the `try` block of `PrismaTokenStore.saveTokens`: the
validation throw fires before the upsert is attempted; `storeFault` models
the database faulting on the upsert itself. -/
def saveTokensBody (db : TokenDb) (userId : String) (tokens : Credentials)
    (userEmail : Option String) (now : Int) (storeFault : Bool) :
    Except SaveError TokenDb :=
  if !(strTruthy tokens.access_token) then
    .error (.validation "Invalid tokens: access_token is required")
  else if storeFault then
    .error (.storage "database fault")
  else
    .ok (upsertToken db userId tokens userEmail (computedExpiresAt tokens now) now)

/-- `PrismaTokenStore.saveTokens`: any error thrown inside the `try` block
(the validation throw included) is caught, logged, and re-thrown as the
generic `Failed to save tokens to database` error. -/
def saveTokens (db : TokenDb) (userId : String) (tokens : Credentials)
    (userEmail : Option String) (now : Int) (storeFault : Bool) :
    Except String TokenDb :=
  match saveTokensBody db userId tokens userEmail now storeFault with
  | .ok db2 => .ok db2
  | .error _ => .error "Failed to save tokens to database"

/-- `PrismaTokenStore.loadTokens`: `findUnique` on `userId`, mapped back to
the Google credential shape.  Expired records are only logged, never
filtered.  The `|| undefined` coercions make an empty stored
`refreshToken`, `scope` or `idToken` load as absent. -/
def loadTokens (db : TokenDb) (userId : String) : Option Credentials :=
  match db.find? (fun r => r.userId == userId) with
  | none => none
  | some r =>
    some { access_token := some r.accessToken
           refresh_token := if strTruthy r.refreshToken then r.refreshToken else none
           token_type := some r.tokenType
           scope := if strTruthy r.scope then r.scope else none
           expiry_date := some r.expiresAt
           id_token := if strTruthy r.idToken then r.idToken else none }

/-- The `where` clause of the count query in `hasValidTokens`:
`expiresAt: { gt: new Date() }`, i.e. strictly in the future. -/
def tokenLive (r : OAuthTokenRecord) (now : Int) : Bool :=
  now < r.expiresAt

/-- `PrismaTokenStore.hasValidTokens`: counts records for `userId` with a
strictly future `expiresAt` and returns whether the count is positive.
The second component is the table after the call: the count query reads
only, so it is the table unchanged. -/
def hasValidTokens (db : TokenDb) (userId : String) (now : Int) :
    Bool × TokenDb :=
  (decide (0 < (db.filter (fun r => r.userId == userId && tokenLive r now)).length), db)

/-- The `where` clause of the `deleteMany` in `cleanupExpiredTokens`:
`expiresAt: { lt: new Date() }` and `refreshToken: null`. -/
def cleanupEligible (r : OAuthTokenRecord) (now : Int) : Bool :=
  r.expiresAt < now && r.refreshToken == none

/-- `PrismaTokenStore.cleanupExpiredTokens`: `deleteMany` of the
cleanup-eligible rows; returns the surviving table and the deleted count
(`result.count`). -/
def cleanupExpiredTokens (db : TokenDb) (now : Int) : TokenDb × Nat :=
  (db.filter (fun r => !(cleanupEligible r now)),
   (db.filter (fun r => cleanupEligible r now)).length)

/-- The fixed OAuth authorization-URL parameters produced by
`getAuthUrl` in `src/server.ts`: the two calendar scopes, offline access
and forced consent. -/
structure AuthUrlParams where
  access_type : String
  scope : List String
  prompt : String
deriving Repr, DecidableEq

/-- `getAuthUrl` from `src/server.ts`. -/
def getAuthUrl : AuthUrlParams :=
  { access_type := "offline"
    scope := ["https://www.googleapis.com/auth/calendar",
              "https://www.googleapis.com/auth/calendar.events"]
    prompt := "consent" }

/-- The `eventDetails` argument of `createCalendarEvent`. -/
structure EventDetails where
  summary : String
  description : Option String
  startDateTime : String
  endDateTime : String
  location : Option String
deriving Repr, DecidableEq

/-- The request body built by `createCalendarEvent` for
`calendarWithAuth.events.insert`. -/
structure CalendarEvent where
  summary : String
  description : String
  location : String
  startDateTime : String
  endDateTime : String
  timeZone : String
deriving Repr, DecidableEq

/-- Event-payload construction in `createCalendarEvent`:
`description`/`location` default to the empty string, both instants are
re-serialized through `new Date(x).toISOString()` (modelled by the
abstract `toISO`), and the wire time zone is UTC. -/
def buildCalendarEvent (details : EventDetails) (toISO : String → String) :
    CalendarEvent :=
  { summary := details.summary
    description := details.description.getD ""
    location := details.location.getD ""
    startDateTime := toISO details.startDateTime
    endDateTime := toISO details.endDateTime
    timeZone := "UTC" }

/-- What `createCalendarEvent` does before/instead of talking to the
provider: either the authentication-required envelope (error message,
auth URL, user message), or a provider call on a concrete event payload. -/
inductive WriteAction where
  | authRequired (error : String) (authUrl : AuthUrlParams) (message : String)
  | callProvider (event : CalendarEvent)
deriving Repr, DecidableEq

/-- The credential gate plus provider dispatch of `createCalendarEvent` in
`src/server.ts`: `oauth2Client.credentials` is consulted and the provider
call happens unless the credential object is absent or its `access_token`
is falsy.  Expiry is never inspected. -/
def createCalendarEventAction (creds : Option Credentials)
    (details : EventDetails) (toISO : String → String) : WriteAction :=
  match creds with
  | none =>
    .authRequired "Authentication required" getAuthUrl
      "Please visit the URL to authenticate and allow access to your Google Calendar."
  | some c =>
    if strTruthy c.access_token then
      .callProvider (buildCalendarEvent details toISO)
    else
      .authRequired "Authentication required" getAuthUrl
        "Please visit the URL to authenticate and allow access to your Google Calendar."

/-- The gate predicate of `createCalendarEvent`:
`!credentials || !credentials.access_token`, negated. -/
def hasAccessToken : Option Credentials → Bool
  | none => false
  | some c => strTruthy c.access_token

/-- Outcome of the `createCalendarEvent` tool handler in `src/server.ts`,
up to the point where it either rejects or delegates to
`createCalendarEvent`. -/
inductive CreateToolResult where
  | schemaRejected
  | validationError (error : String)
  | proceed (action : WriteAction)
deriving Repr, DecidableEq

/-- The `createCalendarEvent` tool: the zod `inputSchema` requires a
non-empty `summary` and `Date.parse`-able `startDateTime`/`endDateTime`
(`parse` models JS date parsing, `none` for `NaN`); the handler then
rejects `endTime <= startTime` before calling `createCalendarEvent`. -/
def createCalendarEventTool (parse : String → Option Int)
    (creds : Option Credentials) (toISO : String → String)
    (summary : String) (description : Option String)
    (startDateTime endDateTime : String) (location : Option String) :
    CreateToolResult :=
  match parse startDateTime, parse endDateTime with
  | some startTime, some endTime =>
    if summary.length < 1 then .schemaRejected
    else if endTime ≤ startTime then
      .validationError "End time must be after the start time."
    else
      .proceed (createCalendarEventAction creds
        { summary := summary, description := description,
          startDateTime := startDateTime, endDateTime := endDateTime,
          location := location } toISO)
  | _, _ => .schemaRejected

/-- `event.start` of a Google Calendar event: an optional object holding
an optional timed start (`dateTime`) and an optional all-day start
(`date`). -/
structure EventDateTime where
  dateTime : Option String
  date : Option String
deriving Repr, DecidableEq

/-- A Google Calendar event as read by `getMyCalendarDataByDate`. -/
structure GCalEvent where
  summary : Option String
  start : Option EventDateTime
deriving Repr, DecidableEq

/-- The parameters `getMyCalendarDataByDate` passes to
`calendarReadOnly.events.list`. -/
structure ListQuery where
  timeMin : Int
  timeMax : Int
  maxResults : Nat
  singleEvents : Bool
  orderBy : String
deriving Repr, DecidableEq

/-- `start.setUTCHours(0, 0, 0, 0)` on a JS date holding instant `t`:
floor `t` to its UTC day boundary. -/
def utcDayStart (t : Int) : Int :=
  86400000 * Int.fdiv t 86400000

/-- The events.list query built by `getMyCalendarDataByDate` for the
parsed instant `t`: the UTC day window of `t`, at most 10 results,
single events ordered by start time. -/
def calendarQueryOfDate (t : Int) : ListQuery :=
  { timeMin := utcDayStart t
    timeMax := utcDayStart t + 86400000
    maxResults := 10
    singleEvents := true
    orderBy := "startTime" }

/-- The display time of one event:
`event.start ? event.start.dateTime || event.start.date : "Unknown time"`.
When `start` exists but both fields are absent, the JS expression is
`undefined` and the template literal renders the string "undefined". -/
def eventTime (e : GCalEvent) : String :=
  match e.start with
  | none => "Unknown time"
  | some st => jsTemplate (if strTruthy st.dateTime then st.dateTime else st.date)

/-- One line of the `meetings` array: `` `${event.summary} at ${time}` ``. -/
def eventLine (e : GCalEvent) : String :=
  jsTemplate e.summary ++ " at " ++ eventTime e

/-- Result of `getMyCalendarDataByDate`: the meetings list, or the error
envelope produced from a provider failure. -/
inductive ReadResult where
  | meetings (lines : List String)
  | error (msg : String)
deriving Repr, DecidableEq

/-- `getMyCalendarDataByDate` from `src/server.ts`, with the provider
(`calendarReadOnly.events.list`) abstracted as a function of the query. -/
def getMyCalendarDataByDate (t : Int)
    (provider : ListQuery → Except String (List GCalEvent)) : ReadResult :=
  match provider (calendarQueryOfDate t) with
  | .ok events => .meetings (events.map eventLine)
  | .error e => .error e

/-- Outcome of the `getMyCalendarDataByDate` tool: zod rejection on an
unparseable date string, or the result of running the fetch. -/
inductive ReadToolResult where
  | schemaRejected (msg : String)
  | ran (r : ReadResult)
deriving Repr, DecidableEq

/-- The `getMyCalendarDataByDate` tool: the zod `inputSchema` refines the
date string with `!isNaN(Date.parse(val))`; only then does the handler run
the fetch on the parsed instant. -/
def getMyCalendarDataTool (parse : String → Option Int)
    (provider : ListQuery → Except String (List GCalEvent))
    (date : String) : ReadToolResult :=
  match parse date with
  | none => .schemaRejected "Invalid date format; please provide a valid date string."
  | some t => .ran (getMyCalendarDataByDate t provider)

/-- The JSON envelope serialized by the `setGoogleOAuthTokens` tool
handler. -/
structure ToolEnvelope where
  success : Bool
  message : Option String
  error : Option String
deriving Repr, DecidableEq

/-- State touched by the `setGoogleOAuthTokens` handler: the in-process
`oauth2Client.credentials` object and the token table. -/
structure OAuthState where
  creds : Option Credentials
  db : TokenDb
deriving Repr, DecidableEq

/-- The `setGoogleOAuthTokens` tool handler in `src/server.ts`:
`oauth2Client.getToken(code)` is modelled by its result `exchange`; on
success the handler first runs `oauth2Client.setCredentials(tokens)` and
only then `tokenStore.saveTokens(userId, tokens)`, so a save failure is
reported as `{success:false, error}` while the in-process credentials
already hold the new tokens and the table is unchanged. -/
def setGoogleOAuthTokens (exchange : Except String Credentials)
    (st : OAuthState) (userId : String) (now : Int) (storeFault : Bool) :
    ToolEnvelope × OAuthState :=
  match exchange with
  | .error e =>
    ({ success := false, message := none, error := some e }, st)
  | .ok tokens =>
    let st1 : OAuthState := { st with creds := some tokens }
    match saveTokens st1.db userId tokens none now storeFault with
    | .ok db2 =>
      ({ success := true
         message := some "Authentication successful! You can now create calendar events."
         error := none },
       { st1 with db := db2 })
    | .error e =>
      ({ success := false, message := none, error := some e }, st1)

/-- The credential shape that `loadTokens` recovers after a successful
`saveTokens` that stored expiry instant `expiresAt` through the `create`
branch of the upsert (no row existed for the user). -/
def savedCredentials (tokens : Credentials) (expiresAt : Int) : Credentials :=
  { access_token := some (tokens.access_token.getD "")
    refresh_token := if strTruthy tokens.refresh_token then tokens.refresh_token else none
    token_type := some (if strTruthy tokens.token_type then tokens.token_type.getD "" else "Bearer")
    scope := if strTruthy tokens.scope then tokens.scope else none
    expiry_date := some expiresAt
    id_token := if strTruthy tokens.id_token then tokens.id_token else none }

/-- The credential shape that `loadTokens` recovers after a successful
`saveTokens` that stored expiry instant `expiresAt`, given the row
previously stored for the user: with no prior row the `create` payload is
stored; with a prior row, the optional fields absent from the input are
skipped by the prisma `update` and the stored values survive. -/
def upsertedCredentials (tokens : Credentials) (expiresAt : Int) :
    Option OAuthTokenRecord → Credentials
  | none => savedCredentials tokens expiresAt
  | some r =>
    { access_token := some (tokens.access_token.getD "")
      refresh_token :=
        if strTruthy (prismaUpdateField tokens.refresh_token r.refreshToken)
        then prismaUpdateField tokens.refresh_token r.refreshToken else none
      token_type := some (if strTruthy tokens.token_type then tokens.token_type.getD "" else "Bearer")
      scope :=
        if strTruthy (prismaUpdateField tokens.scope r.scope)
        then prismaUpdateField tokens.scope r.scope else none
      expiry_date := some expiresAt
      id_token :=
        if strTruthy (prismaUpdateField tokens.id_token r.idToken)
        then prismaUpdateField tokens.id_token r.idToken else none }

/-- Sample credential set with all fields present and non-degenerate. -/
def sampleTokens : Credentials :=
  { access_token := some "a"
    refresh_token := some "r"
    token_type := some "Bearer"
    scope := some "cal"
    expiry_date := some 7200000
    id_token := some "i" }

/-- Credential set exercising the JS-truthiness corners: an empty-string
refresh token and an `expiry_date` of 0. -/
def falsyFieldTokens : Credentials :=
  { access_token := some "a"
    refresh_token := some ""
    token_type := none
    scope := none
    expiry_date := some 0
    id_token := none }

/-- Credential set with no access token at all. -/
def noAccessTokens : Credentials :=
  { access_token := none
    refresh_token := some "r"
    token_type := none
    scope := none
    expiry_date := some 7200000
    id_token := none }

/-- Sample stored row: expired at instant 100, no refresh token. -/
def sampleExpiredRow : OAuthTokenRecord :=
  { userId := "u1", accessToken := "a", refreshToken := none,
    tokenType := "Bearer", scope := none, expiresAt := 100,
    idToken := none, userEmail := none, createdAt := 0, updatedAt := 0 }

/-- Sample stored row: expired at instant 100 but holding a refresh token. -/
def sampleRefreshRow : OAuthTokenRecord :=
  { userId := "u2", accessToken := "b", refreshToken := some "r",
    tokenType := "Bearer", scope := none, expiresAt := 100,
    idToken := none, userEmail := none, createdAt := 0, updatedAt := 0 }

/-- Sample stored row for user u1 holding a refresh token, to be saved
over. -/
def existingRefreshRow : OAuthTokenRecord :=
  { userId := "u1", accessToken := "oldA", refreshToken := some "oldR",
    tokenType := "Bearer", scope := none, expiresAt := 500,
    idToken := none, userEmail := none, createdAt := 0, updatedAt := 0 }

/-- Credential set with an access token but no refresh token, as a second
exchange without forced consent would return. -/
def noRefreshTokens : Credentials :=
  { access_token := some "a2"
    refresh_token := none
    token_type := none
    scope := none
    expiry_date := some 9999
    id_token := none }

/-- Sample event details. -/
def sampleDetails : EventDetails :=
  { summary := "Sync", description := none,
    startDateTime := "S", endDateTime := "E", location := none }

/-- Sample JS date parse mapping "S" to 100 and "E" to 50 (so the parsed
end precedes the parsed start) and everything else to `NaN`. -/
def sampleParse (s : String) : Option Int :=
  if s == "S" then some 100 else if s == "E" then some 50 else none

/-- Event whose start object exists but has neither a timed nor an
all-day start. -/
def emptyStartEvent : GCalEvent :=
  { summary := some "S", start := some { dateTime := none, date := none } }

theorem length_filter_not_add_length_filter (p : OAuthTokenRecord → Bool)
    (l : TokenDb) :
    (l.filter (fun a => !(p a))).length + (l.filter p).length = l.length := by
  induction l with
  | nil => rfl
  | cons a l ih =>
    cases hpa : p a with
    | false => simp [List.filter_cons, hpa]; omega
    | true => simp [List.filter_cons, hpa]; omega

theorem find?_userId_map (db : TokenDb) (u : String)
    (f : OAuthTokenRecord → OAuthTokenRecord)
    (hf : ∀ r, (f r).userId = r.userId) :
    (db.map f).find? (fun r => r.userId == u)
      = (db.find? (fun r => r.userId == u)).map f := by
  induction db with
  | nil => rfl
  | cons a l ih =>
    by_cases ha : a.userId = u
    · simp [List.find?, hf, ha]
    · have hb : (a.userId == u) = false := by simpa using ha
      simp [List.find?, hf, hb, ih]

theorem loadTokens_upsertToken (db : TokenDb) (u : String)
    (tokens : Credentials) (email : Option String) (expiresAt now : Int) :
    loadTokens (upsertToken db u tokens email expiresAt now) u
      = some (upsertedCredentials tokens expiresAt
          (db.find? (fun r => r.userId == u))) := by
  rw [upsertToken]
  by_cases h : db.any (fun r => r.userId == u) = true
  · rw [if_pos h, loadTokens]
    rw [find?_userId_map db u _ (by
      intro r
      by_cases hr : r.userId == u
      · simp [hr]
      · simp [hr])]
    obtain ⟨r0, hr0mem, hp0⟩ := List.any_eq_true.mp h
    have hsome : (db.find? (fun r : OAuthTokenRecord => r.userId == u)).isSome = true :=
      List.find?_isSome.mpr ⟨r0, hr0mem, hp0⟩
    obtain ⟨r1, hr1⟩ := Option.isSome_iff_exists.mp hsome
    have hu : r1.userId = u := by
      have hp1 := List.find?_some hr1
      simpa using hp1
    rw [hr1]
    simp [hu, upsertedCredentials]
  · rw [if_neg h, loadTokens, List.find?_append]
    have h2 : db.any (fun r => r.userId == u) = false := by
      simpa using h
    have hnone : db.find? (fun r : OAuthTokenRecord => r.userId == u) = none := by
      rw [List.find?_eq_none]
      intro x hx
      simpa using List.any_eq_false.mp h2 x hx
    rw [hnone]
    simp [List.find?, upsertedCredentials, savedCredentials]

/-- C1 (amended): for every userId and credential set with a non-empty
access token, whose expiry (if present) is non-zero, saveTokens followed
by loadTokens recovers: the saved access_token; the saved expiry_date,
with an absent expiry_date replaced by the save instant plus one hour;
and the saved refresh_token whenever it is present and non-empty — while
an absent input refresh_token is skipped by the prisma update, so the
loaded refresh_token then equals whatever the pre-save load returned
(absent when no row existed).  No hypothesis relates the stored expiry to
any later instant: the loaded set is produced even when the stored expiry
is in the past. -/
theorem saveTokens_loadTokens_roundtrip (db : TokenDb) (u : String)
    (tokens : Credentials) (email : Option String) (now : Int) (db2 : TokenDb)
    (haccess : strTruthy tokens.access_token = true)
    (hexp : tokens.expiry_date = none ∨
      ∃ v, tokens.expiry_date = some v ∧ v ≠ 0)
    (hsave : saveTokens db u tokens email now false = .ok db2) :
    ∃ loaded, loadTokens db2 u = some loaded
      ∧ loaded.access_token = tokens.access_token
      ∧ (∀ s, tokens.refresh_token = some s → s ≠ "" →
          loaded.refresh_token = some s)
      ∧ (tokens.refresh_token = none → loadTokens db u = none →
          loaded.refresh_token = none)
      ∧ (∀ old, tokens.refresh_token = none → loadTokens db u = some old →
          loaded.refresh_token = old.refresh_token)
      ∧ (∀ v, tokens.expiry_date = some v → loaded.expiry_date = some v)
      ∧ (tokens.expiry_date = none →
          loaded.expiry_date = some (now + 3600 * 1000)) := by
  rw [saveTokens, saveTokensBody, haccess] at hsave
  simp only [Bool.not_true, Bool.false_eq_true, if_false] at hsave
  cases hsave
  obtain ⟨a, ha⟩ : ∃ a, tokens.access_token = some a := by
    cases hacc : tokens.access_token with
    | none => rw [hacc] at haccess; simp [strTruthy] at haccess
    | some a => exact ⟨a, rfl⟩
  refine ⟨upsertedCredentials tokens (computedExpiresAt tokens now)
      (db.find? (fun r => r.userId == u)),
    loadTokens_upsertToken db u tokens email _ now, ?_, ?_, ?_, ?_, ?_, ?_⟩
  · cases hfind : db.find? (fun r : OAuthTokenRecord => r.userId == u) with
    | none => simp [upsertedCredentials, savedCredentials, ha]
    | some r1 => simp [upsertedCredentials, ha]
  · intro s hs hne
    cases hfind : db.find? (fun r : OAuthTokenRecord => r.userId == u) with
    | none => simp [upsertedCredentials, savedCredentials, hs, strTruthy, hne]
    | some r1 => simp [upsertedCredentials, prismaUpdateField, hs, strTruthy, hne]
  · intro hr hload
    cases hfind : db.find? (fun r : OAuthTokenRecord => r.userId == u) with
    | none => simp [upsertedCredentials, savedCredentials, hr, strTruthy]
    | some r1 => rw [loadTokens, hfind] at hload; cases hload
  · intro old hr hload
    cases hfind : db.find? (fun r : OAuthTokenRecord => r.userId == u) with
    | none => rw [loadTokens, hfind] at hload; cases hload
    | some r1 =>
      rw [loadTokens, hfind] at hload
      have hold := Option.some.inj hload
      rw [← hold]
      simp [upsertedCredentials, prismaUpdateField, hr]
  · intro v hv
    rcases hexp with he | ⟨w, hw, hne⟩
    · rw [he] at hv; cases hv
    · rw [hw] at hv
      cases hv
      cases hfind : db.find? (fun r : OAuthTokenRecord => r.userId == u) with
      | none => simp [upsertedCredentials, savedCredentials, computedExpiresAt, intTruthy, hw, hne]
      | some r1 => simp [upsertedCredentials, computedExpiresAt, intTruthy, hw, hne]
  · intro he
    cases hfind : db.find? (fun r : OAuthTokenRecord => r.userId == u) with
    | none => simp [upsertedCredentials, savedCredentials, computedExpiresAt, intTruthy, he]
    | some r1 => simp [upsertedCredentials, computedExpiresAt, intTruthy, he]

/-- Witness for C1 at concrete inputs: a full credential set saved at
instant 0 for user u1 into an empty table round-trips. -/
theorem saveTokens_loadTokens_roundtrip_witness :
    ∃ loaded,
      loadTokens (upsertToken [] "u1" sampleTokens none 7200000 0) "u1" = some loaded
      ∧ loaded.access_token = sampleTokens.access_token
      ∧ (∀ s, sampleTokens.refresh_token = some s → s ≠ "" →
          loaded.refresh_token = some s)
      ∧ (sampleTokens.refresh_token = none → loadTokens [] "u1" = none →
          loaded.refresh_token = none)
      ∧ (∀ old, sampleTokens.refresh_token = none → loadTokens [] "u1" = some old →
          loaded.refresh_token = old.refresh_token)
      ∧ (∀ v, sampleTokens.expiry_date = some v → loaded.expiry_date = some v)
      ∧ (sampleTokens.expiry_date = none →
          loaded.expiry_date = some (0 + 3600 * 1000)) :=
  saveTokens_loadTokens_roundtrip [] "u1" sampleTokens none 0
    (upsertToken [] "u1" sampleTokens none 7200000 0)
    (by decide)
    (Or.inr ⟨7200000, rfl, by decide⟩)
    (by rfl)

/-- Counterexample for C1 as stated, at two concrete inputs.  First, the
credential set with refresh_token = "" and expiry_date = 0 contains an
access token, yet after a save at instant 1000 into an empty table the
loaded refresh_token is absent (not "") and the loaded expiry_date is the
one-hour default 3601000 (not 0): JS truthiness treats both saved values
as missing.  Second, saving a refresh-token-less set over an existing row
for the same user that holds refresh token "oldR" loads back
refresh_token "oldR", not the saved absence: prisma skips the undefined
update field and preserves the stored value. -/
theorem saveTokens_loadTokens_falsy_counterexample :
    saveTokens [] "u1" falsyFieldTokens none 1000 false
      = .ok (upsertToken [] "u1" falsyFieldTokens none 3601000 1000)
    ∧ loadTokens (upsertToken [] "u1" falsyFieldTokens none 3601000 1000) "u1"
      = some (savedCredentials falsyFieldTokens 3601000)
    ∧ (savedCredentials falsyFieldTokens 3601000).refresh_token
      ≠ falsyFieldTokens.refresh_token
    ∧ (savedCredentials falsyFieldTokens 3601000).expiry_date
      ≠ falsyFieldTokens.expiry_date
    ∧ saveTokens [existingRefreshRow] "u1" noRefreshTokens none 1000 false
      = .ok (upsertToken [existingRefreshRow] "u1" noRefreshTokens none 9999 1000)
    ∧ loadTokens (upsertToken [existingRefreshRow] "u1" noRefreshTokens none 9999 1000) "u1"
      = some (upsertedCredentials noRefreshTokens 9999 (some existingRefreshRow))
    ∧ (upsertedCredentials noRefreshTokens 9999 (some existingRefreshRow)).refresh_token
      = some "oldR"
    ∧ noRefreshTokens.refresh_token = none := by
  refine ⟨by rfl, by rfl, by decide, by decide, by rfl, by rfl, by rfl, by rfl⟩

/-- C2: cleanupExpiredTokens removes exactly the records whose expiresAt
is strictly in the past and whose refreshToken is absent (NULL), returns
the count of records actually removed (kept + removed = total), and never
removes a record holding a refresh token, expired or not. -/
theorem cleanupExpiredTokens_spec (db : TokenDb) (now : Int) :
    (∀ r, r ∈ (cleanupExpiredTokens db now).1 ↔
      r ∈ db ∧ ¬(r.expiresAt < now ∧ r.refreshToken = none))
    ∧ (cleanupExpiredTokens db now).1.length + (cleanupExpiredTokens db now).2
        = db.length
    ∧ (∀ r s, r ∈ db → r.refreshToken = some s →
        r ∈ (cleanupExpiredTokens db now).1) := by
  refine ⟨?_, ?_, ?_⟩
  · intro r
    simp [cleanupExpiredTokens, List.mem_filter, cleanupEligible,
      not_and, Decidable.imp_iff_not_or]
  · exact length_filter_not_add_length_filter (fun r => cleanupEligible r now) db
  · intro r s hmem hr
    simp [cleanupExpiredTokens, List.mem_filter, cleanupEligible, hmem, hr]

/-- Witness for C2: in a table holding one expired refresh-token-less row
and one expired row with a refresh token, cleanup at instant 200 keeps the
refresh-token row. -/
theorem cleanupExpiredTokens_spec_witness :
    sampleRefreshRow ∈ (cleanupExpiredTokens [sampleExpiredRow, sampleRefreshRow] 200).1 :=
  (cleanupExpiredTokens_spec [sampleExpiredRow, sampleRefreshRow] 200).2.2
    sampleRefreshRow "r" (by simp) (by rfl)

/-- C3: hasValidTokens is true iff a record for that userId exists whose
expiresAt is strictly later than the evaluation instant, and the table
after the check is unchanged (no refresh, no delete): once every record of
the user has expiresAt at or before the instant, it is false with no other
operation having run. -/
theorem hasValidTokens_spec (db : TokenDb) (userId : String) (now : Int) :
    ((hasValidTokens db userId now).1 = true ↔
      ∃ r ∈ db, r.userId = userId ∧ now < r.expiresAt)
    ∧ (hasValidTokens db userId now).2 = db := by
  constructor
  · simp only [hasValidTokens, decide_eq_true_eq,
      List.length_pos_iff_exists_mem, List.mem_filter, Bool.and_eq_true,
      beq_iff_eq, tokenLive, decide_eq_true_eq]
  · rfl

/-- C10: the validity predicate of hasValidTokens (expiresAt strictly
greater than now) and the eligibility predicate of cleanupExpiredTokens
(expiresAt strictly less than now, refresh token absent) are mutually
exclusive at a single instant, and a record whose expiresAt equals that
instant satisfies neither: it is not counted valid and it survives the
cleanup sweep. -/
theorem validity_cleanup_boundary (r : OAuthTokenRecord) (now : Int)
    (db : TokenDb) :
    ¬(tokenLive r now = true ∧ cleanupEligible r now = true)
    ∧ (r.expiresAt = now →
        tokenLive r now = false
        ∧ cleanupEligible r now = false
        ∧ (hasValidTokens [r] r.userId now).1 = false
        ∧ (r ∈ db → r ∈ (cleanupExpiredTokens db now).1)) := by
  constructor
  · rintro ⟨hl, he⟩
    simp only [tokenLive, decide_eq_true_eq] at hl
    simp only [cleanupEligible, Bool.and_eq_true, decide_eq_true_eq] at he
    exact absurd (lt_trans hl he.1) (lt_irrefl now)
  · intro hb
    refine ⟨?_, ?_, ?_, ?_⟩
    · simp [tokenLive, hb]
    · simp [cleanupEligible, hb]
    · simp [hasValidTokens, tokenLive, hb, List.filter]
    · intro hmem
      simp [cleanupExpiredTokens, List.mem_filter, cleanupEligible, hb, hmem]

/-- Witness for C10 at the boundary: the sample expired row, checked at
the very instant its expiry is reached, is neither valid nor
cleanup-eligible and survives the sweep. -/
theorem validity_cleanup_boundary_witness :
    tokenLive sampleExpiredRow 100 = false
    ∧ cleanupEligible sampleExpiredRow 100 = false
    ∧ (hasValidTokens [sampleExpiredRow] sampleExpiredRow.userId 100).1 = false
    ∧ (sampleExpiredRow ∈ (cleanupExpiredTokens [sampleExpiredRow] 100).1) := by
  have h := (validity_cleanup_boundary sampleExpiredRow 100 [sampleExpiredRow]).2
    (by rfl)
  exact ⟨h.1, h.2.1, h.2.2.1, h.2.2.2 (by simp)⟩

/-- C4: the write gate of createCalendarEvent is exactly presence of a
truthy access token on the in-process credential object: when it is
missing, the result is the authentication-required envelope built from
getAuthUrl, whose parameters are offline access, forced consent and
exactly the calendar and calendar.events scopes, and no provider call
happens; when it is present the provider call is made — and the branch
taken never depends on expiry_date, so an expired token is still
attempted. -/
theorem createCalendarEvent_auth_gate (creds : Option Credentials)
    (details : EventDetails) (toISO : String → String) :
    (createCalendarEventAction creds details toISO =
      if hasAccessToken creds then
        .callProvider (buildCalendarEvent details toISO)
      else
        .authRequired "Authentication required" getAuthUrl
          "Please visit the URL to authenticate and allow access to your Google Calendar.")
    ∧ getAuthUrl.access_type = "offline"
    ∧ getAuthUrl.prompt = "consent"
    ∧ getAuthUrl.scope = ["https://www.googleapis.com/auth/calendar",
        "https://www.googleapis.com/auth/calendar.events"]
    ∧ (∀ c d, createCalendarEventAction (some { c with expiry_date := d }) details toISO
        = createCalendarEventAction (some c) details toISO) := by
  refine ⟨?_, rfl, rfl, rfl, ?_⟩
  · cases creds with
    | none => rfl
    | some c =>
      by_cases h : strTruthy c.access_token = true
      · simp [createCalendarEventAction, hasAccessToken, h]
      · simp only [Bool.not_eq_true] at h
        simp [createCalendarEventAction, hasAccessToken, h]
  · intro c d
    by_cases h : strTruthy c.access_token = true
    · simp [createCalendarEventAction, h]
    · simp only [Bool.not_eq_true] at h
      simp [createCalendarEventAction, h]

/-- C5: whenever both instants parse and the parsed end is at or before
the parsed start (equality included), the createCalendarEvent tool
handler answers the fixed validation error and never reaches
createCalendarEvent, hence no provider call; and an empty summary is
rejected by the input schema. -/
theorem createTool_rejects_nonpositive_window (parse : String → Option Int)
    (creds : Option Credentials) (toISO : String → String)
    (summary : String) (description : Option String)
    (startDateTime endDateTime : String) (location : Option String)
    (s e : Int)
    (hs : parse startDateTime = some s) (he : parse endDateTime = some e) :
    (e ≤ s → summary ≠ "" →
      createCalendarEventTool parse creds toISO summary description
          startDateTime endDateTime location
        = .validationError "End time must be after the start time.")
    ∧ (summary = "" →
      createCalendarEventTool parse creds toISO summary description
          startDateTime endDateTime location
        = .schemaRejected) := by
  constructor
  · intro hle hsum
    have hlen : ¬ summary.length < 1 := by
      intro hcon
      have h0 : summary.length = 0 := by omega
      have hd : summary.data = [] := List.length_eq_zero.mp h0
      exact hsum (by cases summary with | mk d => cases hd; rfl)
    rw [createCalendarEventTool, hs, he]
    simp [hlen, hle]
  · intro hsum
    rw [createCalendarEventTool, hs, he]
    simp [hsum]

/-- Witness for C5: under sampleParse the sample details have start 100
and end 50, so the handler rejects with the validation error, and the
empty-summary variant is schema-rejected. -/
theorem createTool_rejects_nonpositive_window_witness :
    (createCalendarEventTool sampleParse none (fun s => s) "Sync" none "S" "E" none
      = .validationError "End time must be after the start time.")
    ∧ (createCalendarEventTool sampleParse none (fun s => s) "" none "S" "E" none
      = .schemaRejected) := by
  constructor
  · exact (createTool_rejects_nonpositive_window sampleParse none (fun s => s)
      "Sync" none "S" "E" none 100 50 (by rfl) (by rfl)).1 (by decide) (by decide)
  · exact (createTool_rejects_nonpositive_window sampleParse none (fun s => s)
      "" none "S" "E" none 100 50 (by rfl) (by rfl)).2 rfl

/-- C6 (amended): saveTokens with a credential set lacking an access token
fails before the upsert is attempted — the body raises the validation
error `Invalid tokens: access_token is required` whether or not the
storage layer would fault — but the surrounding catch rewrites every
failure to the generic `Failed to save tokens to database`, so what the
caller sees is not the validation message and is identical to a storage
fault; storage faults during save do propagate to the caller. -/
theorem saveTokens_missing_access_token (db : TokenDb) (u : String)
    (tokens : Credentials) (email : Option String) (now : Int)
    (h : strTruthy tokens.access_token = false) :
    (∀ fault, saveTokensBody db u tokens email now fault
      = .error (.validation "Invalid tokens: access_token is required"))
    ∧ (∀ fault, saveTokens db u tokens email now fault
      = .error "Failed to save tokens to database")
    ∧ (∀ tk2 : Credentials, strTruthy tk2.access_token = true →
        saveTokens db u tk2 email now true
          = .error "Failed to save tokens to database") := by
  refine ⟨?_, ?_, ?_⟩
  · intro fault
    simp [saveTokensBody, h]
  · intro fault
    simp [saveTokens, saveTokensBody, h]
  · intro tk2 h2
    simp [saveTokens, saveTokensBody, h2]

/-- Witness for C6: the concrete no-access-token credential set fails with
the generic message under both fault settings, and the sample set under a
storage fault fails with the same message. -/
theorem saveTokens_missing_access_token_witness :
    saveTokensBody [] "u1" noAccessTokens none 0 false
      = .error (.validation "Invalid tokens: access_token is required")
    ∧ saveTokens [] "u1" noAccessTokens none 0 false
      = .error "Failed to save tokens to database"
    ∧ saveTokens [] "u1" sampleTokens none 0 true
      = .error "Failed to save tokens to database" := by
  have h := saveTokens_missing_access_token [] "u1" noAccessTokens none 0 (by rfl)
  exact ⟨h.1 false, h.2.1 false, h.2.2 sampleTokens (by decide)⟩

/-- Counterexample for C6 as stated: the caller-visible failure for a
missing access token is the generic persistence message, not the verbatim
validation message, and it coincides exactly with the failure produced by
a storage fault on a valid save — the two failure kinds are
indistinguishable to the caller. -/
theorem saveTokens_missing_access_token_counterexample :
    saveTokens [] "u1" noAccessTokens none 0 false
      = .error "Failed to save tokens to database"
    ∧ saveTokens [] "u1" sampleTokens none 0 true
      = .error "Failed to save tokens to database"
    ∧ ("Failed to save tokens to database"
        ≠ "Invalid tokens: access_token is required") := by
  exact ⟨by rfl, by rfl, by decide⟩

/-- C7: when the authorization-code exchange fails, the setGoogleOAuthTokens
handler returns the failure envelope carrying the exchange error and leaves
both the in-process credential object and the stored table untouched; when
the exchange succeeds and the subsequent saveTokens succeeds, the obtained
token set is persisted through saveTokens and installed as the in-process
credentials, and the success envelope is returned. -/
theorem setGoogleOAuthTokens_spec (st : OAuthState) (u : String) (now : Int)
    (fault : Bool) (e : String) (tokens : Credentials) (db2 : TokenDb) :
    (setGoogleOAuthTokens (.error e) st u now fault
      = ({ success := false, message := none, error := some e }, st))
    ∧ (saveTokens st.db u tokens none now fault = .ok db2 →
        setGoogleOAuthTokens (.ok tokens) st u now fault
          = ({ success := true
               message := some "Authentication successful! You can now create calendar events."
               error := none },
             { creds := some tokens, db := db2 })) := by
  constructor
  · rfl
  · intro hsave
    simp [setGoogleOAuthTokens, hsave]

/-- Witness for C7: a successful exchange of the sample token set against
an empty table, with a working store, persists the upserted row and
installs the credentials. -/
theorem setGoogleOAuthTokens_spec_witness :
    (setGoogleOAuthTokens (.error "invalid_grant") { creds := none, db := [] } "u1" 0 false
      = ({ success := false, message := none, error := some "invalid_grant" },
         { creds := none, db := [] }))
    ∧ (setGoogleOAuthTokens (.ok sampleTokens) { creds := none, db := [] } "u1" 0 false
      = ({ success := true
           message := some "Authentication successful! You can now create calendar events."
           error := none },
         { creds := some sampleTokens,
           db := upsertToken [] "u1" sampleTokens none 7200000 0 })) := by
  have h := setGoogleOAuthTokens_spec { creds := none, db := [] } "u1" 0 false
    "invalid_grant" sampleTokens (upsertToken [] "u1" sampleTokens none 7200000 0)
  exact ⟨h.1, h.2 (by rfl)⟩

/-- C9: in setGoogleOAuthTokens the in-process credentials are installed
before persistence is attempted, so when the exchange succeeds but the
store faults, the envelope reports failure with the generic persistence
message, the table is unchanged, the in-process credentials already hold
the new tokens, and a subsequent createCalendarEvent in the same process
passes the gate and issues the provider call. -/
theorem setTokens_save_failure_leaves_authorized (st : OAuthState)
    (u : String) (now : Int) (tokens : Credentials)
    (details : EventDetails) (toISO : String → String)
    (h : strTruthy tokens.access_token = true) :
    (setGoogleOAuthTokens (.ok tokens) st u now true).1.success = false
    ∧ (setGoogleOAuthTokens (.ok tokens) st u now true).1.error
        = some "Failed to save tokens to database"
    ∧ (setGoogleOAuthTokens (.ok tokens) st u now true).2.db = st.db
    ∧ (setGoogleOAuthTokens (.ok tokens) st u now true).2.creds = some tokens
    ∧ createCalendarEventAction
        (setGoogleOAuthTokens (.ok tokens) st u now true).2.creds details toISO
      = .callProvider (buildCalendarEvent details toISO) := by
  have hsave : saveTokens st.db u tokens none now true
      = .error "Failed to save tokens to database" := by
    simp [saveTokens, saveTokensBody, h]
  refine ⟨?_, ?_, ?_, ?_, ?_⟩ <;>
    simp [setGoogleOAuthTokens, hsave, createCalendarEventAction, h]

/-- Witness for C9: exchanging successfully while the store faults leaves
the sample tokens installed in-process, the table empty, a failure
envelope reported, and the next write attempt calling the provider. -/
theorem setTokens_save_failure_leaves_authorized_witness :
    (setGoogleOAuthTokens (.ok sampleTokens) { creds := none, db := [] } "u1" 0 true).1.success = false
    ∧ (setGoogleOAuthTokens (.ok sampleTokens) { creds := none, db := [] } "u1" 0 true).1.error
        = some "Failed to save tokens to database"
    ∧ (setGoogleOAuthTokens (.ok sampleTokens) { creds := none, db := [] } "u1" 0 true).2.db = []
    ∧ (setGoogleOAuthTokens (.ok sampleTokens) { creds := none, db := [] } "u1" 0 true).2.creds
        = some sampleTokens
    ∧ createCalendarEventAction
        (setGoogleOAuthTokens (.ok sampleTokens) { creds := none, db := [] } "u1" 0 true).2.creds
        sampleDetails (fun s => s)
      = .callProvider (buildCalendarEvent sampleDetails (fun s => s)) :=
  setTokens_save_failure_leaves_authorized { creds := none, db := [] } "u1" 0
    sampleTokens sampleDetails (fun s => s) (by decide)

/-- C8 (amended): for a parsed date instant t the read path queries
exactly the UTC day window of t (floor to the UTC day boundary, plus 24
hours), capped at 10 results ordered by start time; each returned event
maps to the line summary ++ " at " ++ time where the time is the timed
start when truthy, else the all-day start — the string "Unknown time"
appears exactly when the start object itself is absent, while a start
object with neither field renders the literal "undefined"; and a date
string that does not parse is rejected by the input schema before any
provider call, for every provider. -/
theorem getMyCalendarData_spec (t : Int) (date : String)
    (parse : String → Option Int)
    (provider : ListQuery → Except String (List GCalEvent))
    (events : List GCalEvent) :
    (calendarQueryOfDate t).timeMin = 86400000 * Int.fdiv t 86400000
    ∧ (calendarQueryOfDate t).timeMax = (calendarQueryOfDate t).timeMin + 86400000
    ∧ (calendarQueryOfDate t).maxResults = 10
    ∧ (calendarQueryOfDate t).orderBy = "startTime"
    ∧ (provider (calendarQueryOfDate t) = .ok events →
        getMyCalendarDataByDate t provider = .meetings (events.map eventLine))
    ∧ (∀ err, provider (calendarQueryOfDate t) = .error err →
        getMyCalendarDataByDate t provider = .error err)
    ∧ (∀ ev : GCalEvent,
        eventLine ev = jsTemplate ev.summary ++ " at " ++ eventTime ev
        ∧ (ev.start = none → eventTime ev = "Unknown time")
        ∧ (∀ st, ev.start = some st → strTruthy st.dateTime = true →
            eventTime ev = jsTemplate st.dateTime)
        ∧ (∀ st, ev.start = some st → strTruthy st.dateTime = false →
            eventTime ev = jsTemplate st.date)
        ∧ (∀ st, ev.start = some st → st.dateTime = none → st.date = none →
            eventTime ev = "undefined"))
    ∧ (parse date = none →
        ∀ p2, getMyCalendarDataTool parse p2 date
          = .schemaRejected "Invalid date format; please provide a valid date string.") := by
  refine ⟨rfl, rfl, rfl, rfl, ?_, ?_, ?_, ?_⟩
  · intro hok
    simp [getMyCalendarDataByDate, hok]
  · intro err herr
    simp [getMyCalendarDataByDate, herr]
  · intro ev
    refine ⟨rfl, ?_, ?_, ?_, ?_⟩
    · intro hnone
      simp [eventTime, hnone]
    · intro st hst hdt
      simp [eventTime, hst, hdt]
    · intro st hst hdt
      simp [eventTime, hst, hdt]
    · intro st hst hdt hd
      simp [eventTime, hst, hdt, hd, strTruthy, jsTemplate]
  · intro hnone p2
    simp [getMyCalendarDataTool, hnone]

/-- Witness for C8: the fixed day instant 90000000 yields the window
[86400000, 172800000); a provider returning the empty-start sample event
yields its rendered line; and under sampleParse the unparseable string
"2025-13-40" is schema-rejected for an arbitrary second provider. -/
theorem getMyCalendarData_spec_witness :
    getMyCalendarDataByDate 90000000 (fun _ => .ok [emptyStartEvent])
      = .meetings ([emptyStartEvent].map eventLine)
    ∧ getMyCalendarDataTool sampleParse (fun _ => .ok []) "2025-13-40"
      = .schemaRejected "Invalid date format; please provide a valid date string." := by
  have h := getMyCalendarData_spec 90000000 "2025-13-40" sampleParse
    (fun _ => .ok [emptyStartEvent]) [emptyStartEvent]
  exact ⟨h.2.2.2.2.1 rfl, h.2.2.2.2.2.2.2 (by rfl) (fun _ => .ok [])⟩

/-- Counterexample for C8 as stated: an event whose start object exists
but carries neither a timed nor an all-day start renders as
"S at undefined", not with "Unknown time" — the fallback string appears
only when the start object itself is absent. -/
theorem getMyCalendarData_unknownTime_counterexample :
    getMyCalendarDataByDate 0 (fun _ => .ok [emptyStartEvent])
      = .meetings ["S at undefined"]
    ∧ eventTime emptyStartEvent ≠ "Unknown time" := by
  exact ⟨by rfl, by decide⟩
